import Mathlib

/-!
Verification of the V1TA privacy computation orchestration subsystem.

The TypeScript sources (`src/lib/arcium/client.ts`, `src/lib/arcium/types.ts`,
the `V1TAPrivacyClient` extension and the `useArciumPrivacy` hook) are shallowly
embedded below.  Randomness (`crypto.getRandomValues`) is modelled as an
ambient byte stream consumed at an explicit counter, the wall clock
(`Date.now()`) as a fixed value for the duration of one operation, and the
external network as an oracle of per-attempt outcomes.  Fallible operations
return `Except String`.
-/

/-- Ambient environment of one client operation: the random byte source
(`crypto.getRandomValues` reads successive positions of `rand`) and the wall
clock (`Date.now()`). -/
structure Env where
  rand : Nat → Nat
  now : Nat

/-- `generateRandomBytes` from `client.ts`: fills an array of `length` bytes
from the random source, starting at stream position `ctr`; returns the bytes
and the advanced stream position. -/
def generateRandomBytes (env : Env) (ctr : Nat) (length : Nat) : List Nat × Nat :=
  ((List.range length).map (fun i => env.rand (ctr + i) % 256), ctr + length)

/-- Little-endian fixed-width byte representation of a natural number:
`width` bytes, least significant first. -/
def leBytes : Nat → Nat → List Nat
  | 0, _ => []
  | w + 1, n => (n % 256) :: leBytes w (n / 256)

/-- Value of a little-endian byte list (first byte least significant). -/
def leDecode : List Nat → Nat
  | [] => 0
  | b :: bs => b + 256 * leDecode bs

/-- Big-endian value of a byte list: this is what
`BigInt('0x' + bytes.map(b => b.toString(16).padStart(2, '0')).join(''))`
computes, each byte contributing two hex digits in order. -/
def beDecode (bs : List Nat) : Nat :=
  bs.foldl (fun acc b => acc * 256 + b) 0

/-- Modelled from the spec: `serializeLE` of the external `@arcium-hq/client`
library (its source is not in the repository).  Per §4.1 it serializes an
integer to a fixed-width little-endian byte string and fails (`EncodingError`)
on a value that does not fit, rather than silently truncating. -/
def serializeLE (n : Int) (width : Nat) : Option (List Nat) :=
  if 0 ≤ n ∧ n < (256 : Int) ^ width then some (leBytes width n.toNat) else none

/-- The two AES algorithm tags `'AES-128' | 'AES-256'`. -/
inductive Algorithm where
  | aes128
  | aes256
deriving DecidableEq, Repr

/-- Key length required by each algorithm (16 bytes for AES-128, 32 for
AES-256), as in `client.ts` line 88. -/
def keyLength : Algorithm → Nat
  | .aes128 => 16
  | .aes256 => 32

/-- Modelled from the spec: the keystream of the external AEAD ciphers
(`Aes128Cipher` / `Aes256Cipher` of `@arcium-hq/client`, source not in the
repository).  §4.1 requires authenticated symmetric encryption keyed by
`(key, nonce)`; the concrete stream function is immaterial to the claims. -/
def keystream (alg : Algorithm) (key nonce : List Nat) (i : Nat) : Nat :=
  (key.sum * 31 + nonce.sum * 17 + i * 7 + (match alg with | .aes128 => 1 | .aes256 => 2)) % 256

/-- XOR a byte list against a keystream starting at stream index `i`. -/
def xorStream (ks : Nat → Nat) : Nat → List Nat → List Nat
  | _, [] => []
  | i, b :: bs => (b ^^^ ks i) :: xorStream ks (i + 1) bs

/-- Modelled from the spec: the 16-byte authentication tag of the external
AEAD ciphers, a function of key, nonce and plaintext. -/
def aeadTag (alg : Algorithm) (key nonce pt : List Nat) : List Nat :=
  (List.range 16).map (fun i => (keystream alg key nonce (pt.length + i) + pt.sum) % 256)

/-- Modelled from the spec: `cipher.encrypt(dataBytes, nonce)` of the external
AEAD ciphers — ciphertext is the keystream-XORed plaintext followed by the
authentication tag. -/
def cipherEncrypt (alg : Algorithm) (key nonce pt : List Nat) : List Nat :=
  xorStream (keystream alg key nonce) 0 pt ++ aeadTag alg key nonce pt

/-- Modelled from the spec: `cipher.decrypt(data, nonce)` of the external AEAD
ciphers — splits off the 16-byte tag, inverts the keystream XOR and verifies
the tag, failing (`DecryptionError`) when authentication fails. -/
def cipherDecrypt (alg : Algorithm) (key nonce ct : List Nat) : Option (List Nat) :=
  if ct.length < 16 then none
  else
    let body := ct.take (ct.length - 16)
    let tag := ct.drop (ct.length - 16)
    let pt := xorStream (keystream alg key nonce) 0 body
    if tag = aeadTag alg key nonce pt then some pt else none

/-- `EncryptedData` from `types.ts`: ciphertext plus the key, nonce and
algorithm tag needed to decrypt it. -/
structure EncryptedData where
  data : List Nat
  key : List Nat
  nonce : List Nat
  algorithm : Algorithm
deriving DecidableEq, Repr

/-- The three input types accepted by `encryptData`
(`string | bigint | number`); a string is carried as its UTF-8 bytes
(`TextEncoder().encode`). -/
inductive EncryptInput where
  | str (bytes : List Nat)
  | big (n : Int)
  | num (n : Int)

/-- The `dataBytes` conversion at the head of `encryptData` (`client.ts`
lines 81–85): strings are UTF-8 encoded, bigints serialized little-endian to
64 bytes, numbers to 32 bytes. -/
def toDataBytes : EncryptInput → Option (List Nat)
  | .str b => some b
  | .big n => serializeLE n 64
  | .num n => serializeLE n 32

/-- `V1TArciumClient.encryptData`: converts the input to bytes, uses the
caller's key or draws a fresh one of the algorithm's length, draws a fresh
12-byte nonce, and encrypts.  Returns the `EncryptedData` record and the
advanced random-stream position; an unencodable numeric input is an error. -/
def encryptData (env : Env) (ctr : Nat) (input : EncryptInput) (algorithm : Algorithm)
    (keyOpt : Option (List Nat)) : Except String (EncryptedData × Nat) :=
  match toDataBytes input with
  | none => Except.error "Data encryption failed: EncodingError"
  | some dataBytes =>
    let keyPair : List Nat × Nat :=
      match keyOpt with
      | some k => (k, ctr)
      | none => generateRandomBytes env ctr (keyLength algorithm)
    let noncePair := generateRandomBytes env keyPair.2 12
    Except.ok
      ({ data := cipherEncrypt algorithm keyPair.1 noncePair.1 dataBytes
       , key := keyPair.1
       , nonce := noncePair.1
       , algorithm := algorithm }, noncePair.2)

/-- `V1TArciumClient.decryptData`: dispatches on the stored algorithm tag and
decrypts with the stored key and nonce. -/
def decryptData (ed : EncryptedData) : Except String (List Nat) :=
  match cipherDecrypt ed.algorithm ed.key ed.nonce ed.data with
  | some pt => Except.ok pt
  | none => Except.error "Data decryption failed"

/-! ### Cipher round-trip lemmas -/

lemma xorStream_length (ks : Nat → Nat) : ∀ (i : Nat) (l : List Nat),
    (xorStream ks i l).length = l.length := by
  intro i l
  induction l generalizing i with
  | nil => rfl
  | cons b bs ih => simp [xorStream, ih]

lemma xorStream_xorStream (ks : Nat → Nat) : ∀ (i : Nat) (l : List Nat),
    xorStream ks i (xorStream ks i l) = l := by
  intro i l
  induction l generalizing i with
  | nil => rfl
  | cons b bs ih =>
    simp only [xorStream, ih]
    congr 1
    rw [Nat.xor_assoc, Nat.xor_self, Nat.xor_zero]

lemma aeadTag_length (alg : Algorithm) (key nonce pt : List Nat) :
    (aeadTag alg key nonce pt).length = 16 := by
  simp [aeadTag]

lemma cipherDecrypt_cipherEncrypt (alg : Algorithm) (key nonce pt : List Nat) :
    cipherDecrypt alg key nonce (cipherEncrypt alg key nonce pt) = some pt := by
  unfold cipherDecrypt cipherEncrypt
  have hb : (xorStream (keystream alg key nonce) 0 pt).length = pt.length :=
    xorStream_length _ _ _
  have ht : (aeadTag alg key nonce pt).length = 16 :=
    aeadTag_length _ _ _ _
  have hlen : (xorStream (keystream alg key nonce) 0 pt ++ aeadTag alg key nonce pt).length
      = pt.length + 16 := by
    simp [List.length_append, hb, ht]
  rw [hlen]
  have hnot : ¬ (pt.length + 16 < 16) := by omega
  rw [if_neg hnot]
  have hsub : pt.length + 16 - 16 = pt.length := by omega
  rw [hsub]
  have htake : (xorStream (keystream alg key nonce) 0 pt ++ aeadTag alg key nonce pt).take
      pt.length = xorStream (keystream alg key nonce) 0 pt :=
    List.take_left' hb
  have hdrop : (xorStream (keystream alg key nonce) 0 pt ++ aeadTag alg key nonce pt).drop
      pt.length = aeadTag alg key nonce pt :=
    List.drop_left' hb
  simp [htake, hdrop, xorStream_xorStream]

/-! ### Client state, position encryption and the computation registry -/

/-- A Solana public key, carried as its base58 string (`PublicKey.toBase58`). -/
structure PublicKey where
  base58 : String
deriving DecidableEq, Repr

/-- ASCII bytes of a string, as produced by `TextEncoder().encode` on the
base58 alphabet (all code points below 128). -/
def strBytes (s : String) : List Nat :=
  s.toList.map Char.toNat

/-- Mutable fields of `V1TArciumClient`: the `isInitialized` flag, the user
key pair's public key, and the `computationCallbacks` map (a JS `Map` keyed by
string; callbacks are identified by tokens). -/
structure ClientState where
  isInitialized : Bool
  userPublicKey : Option String
  computationCallbacks : List (String × Nat)

/-- `PrivacyLevel` enum from `types.ts` (ordinal, `PUBLIC = 0`). -/
abbrev PrivacyLevel := Nat

def PrivacyLevel.PUBLIC : PrivacyLevel := 0

def PrivacyLevel.SHIELDED : PrivacyLevel := 1

def PrivacyLevel.CONFIDENTIAL : PrivacyLevel := 2

def PrivacyLevel.PRIVATE : PrivacyLevel := 3

/-- Lower-case hex digit of a value below 16 (`toString(16)`). -/
def hexDigit (n : Nat) : Char :=
  if n < 10 then Char.ofNat (48 + n) else Char.ofNat (87 + n)

/-- Two-digit lower-case hex rendering of a byte
(`byte.toString(16).padStart(2, '0')`). -/
def byteToHex (b : Nat) : String :=
  String.mk [hexDigit (b / 16 % 16), hexDigit (b % 16)]

/-- Base-36 digit character (`0`–`9`, then `a`–`z`), as in
`Number.toString(36)`. -/
def base36Digit (n : Nat) : Char :=
  if n < 10 then Char.ofNat (48 + n) else Char.ofNat (97 + (n - 10))

/-- Digits of a base-36 rendering, most significant first; `fuel` bounds the
recursion (any fuel at least the number itself suffices). -/
def toBase36Core (fuel : Nat) (n : Nat) (acc : List Char) : List Char :=
  match fuel, n with
  | 0, _ => acc
  | _ + 1, 0 => acc
  | fuel + 1, n + 1 => toBase36Core fuel ((n + 1) / 36) (base36Digit ((n + 1) % 36) :: acc)

/-- `Number.toString(36)` for a natural number. -/
def toBase36 (n : Nat) : String :=
  if n = 0 then "0" else String.mk (toBase36Core n n [])

/-- `V1TArciumClient.generatePositionId`: base-36 timestamp prefix plus the
hex of 8 random bytes. -/
def generatePositionId (env : Env) (ctr : Nat) : String × Nat :=
  let timestamp := toBase36 env.now
  let rb := generateRandomBytes env ctr 8
  let randomString := String.join (rb.1.map byteToHex)
  ("pos_" ++ timestamp ++ "_" ++ randomString, rb.2)

/-- `EncryptedPosition` from `types.ts`. -/
structure EncryptedPosition where
  positionId : String
  owner : PublicKey
  encryptedCollateral : EncryptedData
  encryptedDebt : EncryptedData
  encryptedOwner : Option EncryptedData
  positionKey : List Nat
  privacyLevel : PrivacyLevel
  createdAt : Nat
  lastUpdated : Nat

/-- `V1TArciumClient.encryptPositionData`: requires an initialized client,
draws one 32-byte position key and a position id, encrypts collateral, debt
and the owner's base58 identity with three `encryptData` calls under that same
key (AES-256 by default), and assembles the `EncryptedPosition` with
`privacyLevel = CONFIDENTIAL` and `createdAt = lastUpdated = Date.now()`.
Any encryption failure aborts the whole operation. -/
def encryptPositionData (env : Env) (ctr : Nat) (st : ClientState)
    (collateralAmount debtAmount : Int) (owner : PublicKey) :
    Except String (EncryptedPosition × Nat) :=
  if st.isInitialized = false then Except.error "Arcium client not initialized"
  else
    let pk := generateRandomBytes env ctr 32
    let pid := generatePositionId env pk.2
    match encryptData env pid.2 (.big collateralAmount) .aes256 (some pk.1) with
    | .error e => Except.error ("Position encryption failed: " ++ e)
    | .ok encCol =>
      match encryptData env encCol.2 (.big debtAmount) .aes256 (some pk.1) with
      | .error e => Except.error ("Position encryption failed: " ++ e)
      | .ok encDebt =>
        match encryptData env encDebt.2 (.str (strBytes owner.base58)) .aes256 (some pk.1) with
        | .error e => Except.error ("Position encryption failed: " ++ e)
        | .ok encOwn =>
          Except.ok
            ({ positionId := pid.1
             , owner := owner
             , encryptedCollateral := encCol.1
             , encryptedDebt := encDebt.1
             , encryptedOwner := some encOwn.1
             , positionKey := pk.1
             , privacyLevel := PrivacyLevel.CONFIDENTIAL
             , createdAt := env.now
             , lastUpdated := env.now }, encOwn.2)

/-- JS `Map.set` on an association list: replaces the value of an existing
key, otherwise appends the new entry. -/
def mapSet (m : List (String × Nat)) (k : String) (v : Nat) : List (String × Nat) :=
  match m with
  | [] => [(k, v)]
  | (k0, v0) :: rest => if k0 = k then (k, v) :: rest else (k0, v0) :: mapSet rest k v

/-- JS `Map.get` on an association list. -/
def mapGet (m : List (String × Nat)) (k : String) : Option Nat :=
  match m with
  | [] => none
  | (k0, v0) :: rest => if k0 = k then some v0 else mapGet rest k

/-- `V1TArciumClient.registerComputationCallback`: stores the freshly created
polling callback (identified here by the token `cb`) in the
`computationCallbacks` map under the key `positionId + "-" + computationType`.
The JS `Map.set` semantics replaces any existing entry; no error is ever
produced. -/
def registerComputationCallback (callbacks : List (String × Nat))
    (positionId computationType : String) (cb : Nat) : List (String × Nat) :=
  mapSet callbacks (positionId ++ "-" ++ computationType) cb

/-- `PrivateHealthResult` from `types.ts`. -/
structure PrivateHealthResult where
  positionId : String
  healthFactor : List Nat
  isLiquidatable : Bool
  liquidationThreshold : List Nat
  computedAt : Nat
  computationId : String

/-- `V1TArciumClient.processHealthFactorResult`: placeholder materializer for
health-factor results — random bytes, `isLiquidatable = false`. -/
def processHealthFactorResult (env : Env) (ctr : Nat)
    (computationId positionId : String) : PrivateHealthResult :=
  let hf := generateRandomBytes env ctr 32
  let lt := generateRandomBytes env hf.2 32
  { positionId := positionId
  , healthFactor := hf.1
  , isLiquidatable := false
  , liquidationThreshold := lt.1
  , computedAt := env.now
  , computationId := computationId }

/-- `V1TArciumClient.processLiquidationResult`: placeholder materializer for
liquidation-check results — random bytes, `isLiquidatable = true`. -/
def processLiquidationResult (env : Env) (ctr : Nat)
    (computationId positionId : String) : PrivateHealthResult :=
  let hf := generateRandomBytes env ctr 32
  let lt := generateRandomBytes env hf.2 32
  { positionId := positionId
  , healthFactor := hf.1
  , isLiquidatable := true
  , liquidationThreshold := lt.1
  , computedAt := env.now
  , computationId := computationId }

/-- The parsed finalization payload (`JSON.parse(result)` in
`monitorComputation`): a kind tag and the position id. -/
structure CallbackData where
  ctype : String
  positionId : String

/-- `V1TArciumClient.monitorComputation`, after the awaited finalization
payload has been parsed: dispatches on the payload's kind tag —
`"health_factor"` to the health-factor materializer, `"liquidation_check"` to
the liquidation materializer, anything else is an error.
`computationOffset` is the reference's offset; its decimal rendering is the
computation id. -/
def monitorComputation (env : Env) (ctr : Nat) (computationOffset : Int)
    (payload : CallbackData) : Except String PrivateHealthResult :=
  if payload.ctype = "health_factor" then
    Except.ok (processHealthFactorResult env ctr (toString computationOffset) payload.positionId)
  else if payload.ctype = "liquidation_check" then
    Except.ok (processLiquidationResult env ctr (toString computationOffset) payload.positionId)
  else
    Except.error "Computation monitoring failed: Unknown computation type"

/-! ### Computation submission, status reporting, validation -/

/-- Outcome of one submission attempt against the external network:
`sendError` models a throw from `buildFinalizeCompDefTx` /
`sendRawTransaction`, `confirmErr` models a non-null `confirmation.value.err`,
and `logs` are the confirmed transaction's log messages. -/
structure SubmissionOutcome where
  sendError : Option String
  confirmErr : Option String
  logs : List String

/-- The external network as an oracle: the outcome each submission attempt
would receive (attempt 0 first). -/
structure Network where
  outcomes : Nat → SubmissionOutcome

/-- The network oracle as seen after skipping the first `k` attempts. -/
def netFrom (net : Network) (k : Nat) : Network :=
  { outcomes := fun i => net.outcomes (k + i) }

/-- Whether `marker` occurs verbatim at the head of the character list. -/
def leadsWith : List Char → List Char → Bool
  | [], _ => true
  | _ :: _, [] => false
  | a :: as, b :: bs => if a = b then leadsWith as bs else false

/-- Characters after the first occurrence of `marker`, if any
(`log.split(marker)` finding at least two parts). -/
def afterMarker (marker : List Char) : List Char → Option (List Char)
  | [] => none
  | c :: cs =>
    if leadsWith marker (c :: cs) then some ((c :: cs).drop marker.length)
    else afterMarker marker cs

/-- Characters before the next occurrence of `marker` (so that the extracted
text is `split(marker)[1]`, the segment between the first two occurrences). -/
def beforeMarker (marker : List Char) : List Char → List Char
  | [] => []
  | c :: cs => if leadsWith marker (c :: cs) then [] else c :: beforeMarker marker cs

/-- JS `String.prototype.trim` whitespace test, restricted to the common
ASCII whitespace characters. -/
def isSpaceChar (c : Char) : Bool :=
  c = ' ' || c = '\t' || c = '\n' || c = '\r'

/-- `ref.trim()`: strip leading and trailing whitespace. -/
def trimChars (l : List Char) : List Char :=
  ((l.dropWhile isSpaceChar).reverse.dropWhile isSpaceChar).reverse

/-- Decimal digits to a natural number; `none` on a non-digit. -/
def digitsToNatCore : List Char → Nat → Option Nat
  | [], acc => some acc
  | c :: cs, acc =>
    if c.isDigit then digitsToNatCore cs (acc * 10 + (c.toNat - 48)) else none

/-- `BigInt(s)` on a trimmed decimal string: digits, optionally signed;
throws (`none`) on the empty string or a non-digit. -/
def parseIntChars (l : List Char) : Option Int :=
  match l with
  | [] => none
  | '-' :: rest =>
    match rest with
    | [] => none
    | _ => (digitsToNatCore rest 0).map (fun n => -(n : Int))
  | _ => (digitsToNatCore l 0).map (fun n => (n : Int))

/-- `V1TArciumClient.extractComputationReference`: scans the transaction logs
for the first entry containing `"Computation created:"`, takes the text after
the marker (`split(marker)[1]`), trims it and parses it as an integer
(`BigInt` throws on a malformed reference). -/
def extractComputationReference (logs : List String) : Except String Int :=
  match logs with
  | [] => Except.error "Could not extract computation reference from transaction"
  | log :: rest =>
    let marker := "Computation created:".toList
    match afterMarker marker log.toList with
    | some tail =>
      match parseIntChars (trimChars (beforeMarker marker tail)) with
      | some n => Except.ok n
      | none => Except.error "Cannot convert reference to a BigInt"
    | none => extractComputationReference rest

/-- `MXEConfiguration` from `types.ts` (declaration only; nothing in the
sources reads it). -/
structure MXEConfiguration where
  numberOfParties : Nat
  threshold : Nat
  computationTimeout : Nat
  retryAttempts : Nat
  priorityFeeStrategy : String

/-- `V1TArciumClient.createHealthFactorComputation`: requires an initialized
client, builds and submits one computation transaction (a single attempt —
`net.outcomes 0`), fails on a send error or a confirmation error, extracts the
computation reference from the logs, and registers the result callback under
`(positionId, "health_factor")`.  Returns the reference and the updated
callback map.  The submission inputs are the three ciphertexts; they do not
influence the control flow modelled here. -/
def createHealthFactorComputation (st : ClientState) (net : Network)
    (encryptedCollateral encryptedDebt encryptedPrice : EncryptedData)
    (positionId : String) (cb : Nat) :
    Except String (Int × List (String × Nat)) :=
  if st.isInitialized = false then Except.error "Arcium client not initialized"
  else
    let o := net.outcomes 0
    match o.sendError with
    | some e => Except.error ("Health factor computation failed: " ++ e)
    | none =>
      match o.confirmErr with
      | some e =>
        Except.error ("Health factor computation failed: Computation transaction failed: " ++ e)
      | none =>
        match extractComputationReference o.logs with
        | .error e => Except.error ("Health factor computation failed: " ++ e)
        | .ok ref =>
          Except.ok (ref, registerComputationCallback st.computationCallbacks positionId "health_factor" cb)

/-- `ArciumIntegrationStatus` from `types.ts`. -/
structure ArciumIntegrationStatus where
  isInitialized : Bool
  publicKey : Option String
  supportedAlgorithms : List String
  currentComputations : Nat
  totalComputationsProcessed : Nat
  lastComputationTime : Option Nat

/-- `V1TArciumClient.getIntegrationStatus`: snapshot of the client state.
`totalComputationsProcessed` is the literal `0` and `lastComputationTime` the
literal `undefined` in the source. -/
def getIntegrationStatus (st : ClientState) : ArciumIntegrationStatus :=
  { isInitialized := st.isInitialized
  , publicKey := st.userPublicKey
  , supportedAlgorithms := ["AES-128", "AES-256"]
  , currentComputations := st.computationCallbacks.length
  , totalComputationsProcessed := 0
  , lastComputationTime := none }

/-- `useArciumPrivacy.validatePrivacySettings`: hard constraints
(`collateral <= 0`, `debt < 0`) set `isValid` to false and push a warning;
the level-specific checks only push warnings. -/
def validatePrivacySettings (collateralAmount debtAmount : Int)
    (privacyLevel : PrivacyLevel) : Bool × List String :=
  let warnings : List String := []
  let isValid := true
  let step1 :=
    if collateralAmount ≤ 0 then
      (false, warnings ++ ["Collateral amount must be greater than 0"])
    else (isValid, warnings)
  let step2 :=
    if debtAmount < 0 then
      (false, step1.2 ++ ["Debt amount cannot be negative"])
    else step1
  let warnings2 :=
    if 2 ≤ privacyLevel ∧ debtAmount = 0 then
      step2.2 ++ ["Confidential privacy level requires debt amount"]
    else step2.2
  let warnings3 :=
    if 3 ≤ privacyLevel ∧ collateralAmount < 1000000000 then
      warnings2 ++ ["Private privacy level requires minimum 1 SOL collateral"]
    else warnings2
  (step2.1, warnings3)

/-- `V1TAPrivacyClient.encryptTransactionAmount`: requires privacy features
enabled, then AES-256-encrypts the bigint amount (64-byte little-endian
serialization inside `encryptData`). -/
def encryptTransactionAmount (privacyEnabled : Bool) (env : Env) (ctr : Nat)
    (amount : Int) : Except String (EncryptedData × Nat) :=
  if privacyEnabled = false then Except.error "Privacy features are not enabled"
  else encryptData env ctr (.big amount) .aes256 none

/-- `V1TAPrivacyClient.decryptTransactionAmount`: requires privacy features
enabled, decrypts, then rebuilds the integer via
`BigInt('0x' + bytes as two-digit hex, concatenated in byte order)` — a
big-endian interpretation of the byte list (`BigInt` throws on the empty
string). -/
def decryptTransactionAmount (privacyEnabled : Bool) (ed : EncryptedData) :
    Except String Int :=
  if privacyEnabled = false then Except.error "Privacy features are not enabled"
  else
    match decryptData ed with
    | .error e => Except.error e
    | .ok [] => Except.error "Cannot convert 0x to a BigInt"
    | .ok bs => Except.ok ((beDecode bs : Nat) : Int)

/-! ### Helper lemmas -/

lemma generateRandomBytes_fst_length (env : Env) (ctr n : Nat) :
    ((generateRandomBytes env ctr n).1).length = n := by
  simp [generateRandomBytes]

lemma generateRandomBytes_snd (env : Env) (ctr n : Nat) :
    (generateRandomBytes env ctr n).2 = ctr + n := rfl

lemma mapGet_mapSet (m : List (String × Nat)) (k : String) (v : Nat) :
    mapGet (mapSet m k v) k = some v := by
  induction m with
  | nil => simp [mapSet, mapGet]
  | cons hd tl ih =>
    by_cases h : hd.1 = k
    · simp [mapSet, mapGet, h]
    · simp [mapSet, mapGet, h, ih]

lemma leBytes_length (w : Nat) : ∀ n, (leBytes w n).length = w := by
  induction w with
  | zero => intro n; rfl
  | succ w ih => intro n; simp [leBytes, ih]

lemma leDecode_leBytes (w : Nat) : ∀ n, n < 256 ^ w → leDecode (leBytes w n) = n := by
  induction w with
  | zero =>
    intro n h
    simp [pow_zero] at h
    simp [leBytes, leDecode, h]
  | succ w ih =>
    intro n h
    have hdiv : n / 256 < 256 ^ w := by
      rw [Nat.div_lt_iff_lt_mul (by norm_num)]
      calc n < 256 ^ (w + 1) := h
        _ = 256 ^ w * 256 := by ring
    simp only [leBytes, leDecode, ih _ hdiv]
    omega

/-! ### Concrete fixtures used by witnesses and counterexamples -/

/-- A concrete environment: the random source emits the byte position itself
(so successive draws are all distinct), and the clock is fixed. -/
def env0 : Env := { rand := fun i => i, now := 1700000000000 }

/-- An initialized client with no registered callbacks. -/
def st0 : ClientState := { isInitialized := true, userPublicKey := none, computationCallbacks := [] }

/-- A concrete owner key. -/
def owner0 : PublicKey := { base58 := "BPFLoaderUpgradeab1e11111111111111111111111" }

/-- A concrete ciphertext record (contents irrelevant to submission). -/
def ed0 : EncryptedData := { data := [], key := [], nonce := [], algorithm := .aes256 }

/-- A network whose first submission attempt fails with a submission error
and whose later attempts would succeed with a well-formed confirmation. -/
def net0 : Network :=
  { outcomes := fun i =>
      if i = 0 then { sendError := some "SubmissionError", confirmErr := none, logs := [] }
      else { sendError := none, confirmErr := none, logs := ["Computation created: 42"] } }

/-- A concrete MXE configuration with a retry budget of 3. -/
def mxeConfig0 : MXEConfiguration :=
  { numberOfParties := 5, threshold := 3, computationTimeout := 60000
  , retryAttempts := 3, priorityFeeStrategy := "fixed" }

/-! ### Claim theorems -/

/-- Claim C1: for every byte string and every key of the correct size for the
chosen algorithm (16 bytes for AES-128, 32 for AES-256), `decryptData` applied
to the result of `encryptData` with that key and algorithm returns the
original bytes. -/
theorem claim_c1 (env : Env) (ctr : Nat) (b k : List Nat) (alg : Algorithm)
    (hk : k.length = keyLength alg) :
    ∃ ed c2, encryptData env ctr (.str b) alg (some k) = Except.ok (ed, c2)
      ∧ decryptData ed = Except.ok b := by
  refine ⟨_, _, rfl, ?_⟩
  simp [decryptData, cipherDecrypt_cipherEncrypt]

/-- Witness for claim C1 at a concrete byte string and 32-byte AES-256 key. -/
theorem claim_c1_witness :
    (List.replicate 32 0).length = keyLength Algorithm.aes256
    ∧ ∃ ed c2,
        encryptData env0 0 (.str [1, 2, 3]) Algorithm.aes256 (some (List.replicate 32 0))
          = Except.ok (ed, c2)
        ∧ decryptData ed = Except.ok [1, 2, 3] :=
  ⟨by decide, claim_c1 env0 0 [1, 2, 3] (List.replicate 32 0) Algorithm.aes256 (by decide)⟩

/-- Claim C5 counterexample: registering a second computation for the same
`(positionId, kind)` key does not fail with `DuplicateComputationError` — the
`Map.set` silently replaces the first registration's callback (token 1) with
the second (token 2). -/
theorem claim_c5_counterexample :
    registerComputationCallback
        (registerComputationCallback [] "pos_1" "health_factor" 1) "pos_1" "health_factor" 2
      = [("pos_1-health_factor", 2)]
    ∧ mapGet
        (registerComputationCallback
          (registerComputationCallback [] "pos_1" "health_factor" 1) "pos_1" "health_factor" 2)
        "pos_1-health_factor" ≠ some 1 := by
  constructor
  · decide
  · decide

/-- Claim C5 (amended): registering a second computation for an
already-registered `(positionId, kind)` key never errors and silently replaces
the earlier entry's callback — the map afterwards holds the second callback
under that key. -/
theorem claim_c5_amended (m : List (String × Nat)) (pid ty : String) (cb1 cb2 : Nat) :
    mapGet (registerComputationCallback (registerComputationCallback m pid ty cb1) pid ty cb2)
      (pid ++ "-" ++ ty) = some cb2 := by
  simp [registerComputationCallback, mapGet_mapSet]

/-- Claim C6: `monitorComputation` dispatches on the finalization payload's
kind tag — `"health_factor"` to the health-factor materializer,
`"liquidation_check"` to the liquidation materializer (whatever was
submitted), and any other tag is an error. -/
theorem claim_c6 (env : Env) (ctr : Nat) (off : Int) (pid : String) :
    monitorComputation env ctr off { ctype := "health_factor", positionId := pid }
      = Except.ok (processHealthFactorResult env ctr (toString off) pid)
    ∧ monitorComputation env ctr off { ctype := "liquidation_check", positionId := pid }
      = Except.ok (processLiquidationResult env ctr (toString off) pid)
    ∧ (processLiquidationResult env ctr (toString off) pid).isLiquidatable = true
    ∧ ∀ t : String, t ≠ "health_factor" → t ≠ "liquidation_check" →
        monitorComputation env ctr off { ctype := t, positionId := pid }
          = Except.error "Computation monitoring failed: Unknown computation type" := by
  refine ⟨?_, ?_, rfl, ?_⟩
  · simp [monitorComputation]
  · simp [monitorComputation]
  · intro t h1 h2
    simp [monitorComputation, h1, h2]

/-- Witness for claim C6 at the unrecognized tag `"interest_calculation"`. -/
theorem claim_c6_witness :
    ("interest_calculation" ≠ "health_factor")
    ∧ ("interest_calculation" ≠ "liquidation_check")
    ∧ monitorComputation env0 0 42 { ctype := "interest_calculation", positionId := "pos_1" }
      = Except.error "Computation monitoring failed: Unknown computation type" :=
  ⟨by decide, by decide,
   (claim_c6 env0 0 42 "pos_1").2.2.2 "interest_calculation" (by decide) (by decide)⟩

/-- Claim C7: `validatePrivacySettings` reports `isValid = false` exactly when
a hard constraint is violated (`collateral <= 0` or `debt < 0`, at any level);
the advisory level-specific cases only append warnings. -/
theorem claim_c7 (c d : Int) (l : PrivacyLevel) :
    ((validatePrivacySettings c d l).1 = false ↔ (c ≤ 0 ∨ d < 0))
    ∧ (2 ≤ l ∧ d = 0 →
        "Confidential privacy level requires debt amount" ∈ (validatePrivacySettings c d l).2)
    ∧ (3 ≤ l ∧ c < 1000000000 →
        "Private privacy level requires minimum 1 SOL collateral"
          ∈ (validatePrivacySettings c d l).2) := by
  refine ⟨?_, ?_, ?_⟩
  · simp only [validatePrivacySettings]
    split_ifs <;> simp_all
  · intro h
    simp only [validatePrivacySettings]
    split_ifs <;> simp_all
  · intro h
    simp only [validatePrivacySettings]
    split_ifs <;> simp_all

/-- Witness for claim C7 at collateral 1, debt 0, level `PRIVATE`: both
advisory warnings appear while `isValid` stays true. -/
theorem claim_c7_witness :
    ((2 ≤ (3 : PrivacyLevel) ∧ (0 : Int) = 0)
      ∧ "Confidential privacy level requires debt amount" ∈ (validatePrivacySettings 1 0 3).2)
    ∧ ((3 ≤ (3 : PrivacyLevel) ∧ (1 : Int) < 1000000000)
      ∧ "Private privacy level requires minimum 1 SOL collateral"
          ∈ (validatePrivacySettings 1 0 3).2) :=
  ⟨⟨by decide, (claim_c7 1 0 3).2.1 (by decide)⟩,
   ⟨by decide, (claim_c7 1 0 3).2.2 (by decide)⟩⟩

/-- Claim C10: in every client state, `getIntegrationStatus` reports
`totalComputationsProcessed = 0` and no `lastComputationTime`. -/
theorem claim_c10 (st : ClientState) :
    (getIntegrationStatus st).totalComputationsProcessed = 0
    ∧ (getIntegrationStatus st).lastComputationTime = none :=
  ⟨rfl, rfl⟩

/-- Claim C3: before encryption, integer inputs are serialized to a
fixed-width little-endian byte string — 64 bytes for a bigint, 32 bytes for a
number — the serialization loses nothing (it decodes back to the value), and a
value that does not fit the width makes `encryptData` fail with an encoding
error rather than silently truncating. -/
theorem claim_c3 (env : Env) (ctr : Nat) (keyOpt : Option (List Nat))
    (alg : Algorithm) (n : Int) :
    ((0 ≤ n ∧ n < (256 : Int) ^ 64) →
      ∃ ed c2, encryptData env ctr (.big n) alg keyOpt = Except.ok (ed, c2)
        ∧ decryptData ed = Except.ok (leBytes 64 n.toNat)
        ∧ (leBytes 64 n.toNat).length = 64
        ∧ (leDecode (leBytes 64 n.toNat) : Int) = n)
    ∧ (¬ (0 ≤ n ∧ n < (256 : Int) ^ 64) →
      encryptData env ctr (.big n) alg keyOpt
        = Except.error "Data encryption failed: EncodingError")
    ∧ ((0 ≤ n ∧ n < (256 : Int) ^ 32) →
      ∃ ed c2, encryptData env ctr (.num n) alg keyOpt = Except.ok (ed, c2)
        ∧ decryptData ed = Except.ok (leBytes 32 n.toNat)
        ∧ (leBytes 32 n.toNat).length = 32
        ∧ (leDecode (leBytes 32 n.toNat) : Int) = n)
    ∧ (¬ (0 ≤ n ∧ n < (256 : Int) ^ 32) →
      encryptData env ctr (.num n) alg keyOpt
        = Except.error "Data encryption failed: EncodingError") := by
  refine ⟨?_, ?_, ?_, ?_⟩
  · intro h
    have hser : serializeLE n 64 = some (leBytes 64 n.toNat) := by
      rw [serializeLE, if_pos h]
    have hlt : n.toNat < 256 ^ 64 := by
      have h0 : (n.toNat : Int) = n := Int.toNat_of_nonneg h.1
      have h2 : (n.toNat : Int) < (256 : Int) ^ 64 := by rw [h0]; exact h.2
      exact_mod_cast h2
    simp only [encryptData, toDataBytes, hser]
    refine ⟨_, _, rfl, ?_, leBytes_length _ _, ?_⟩
    · simp [decryptData, cipherDecrypt_cipherEncrypt]
    · rw [leDecode_leBytes _ _ hlt]
      exact Int.toNat_of_nonneg h.1
  · intro h
    have hser : serializeLE n 64 = none := by rw [serializeLE, if_neg h]
    simp only [encryptData, toDataBytes, hser]
  · intro h
    have hser : serializeLE n 32 = some (leBytes 32 n.toNat) := by
      rw [serializeLE, if_pos h]
    have hlt : n.toNat < 256 ^ 32 := by
      have h0 : (n.toNat : Int) = n := Int.toNat_of_nonneg h.1
      have h2 : (n.toNat : Int) < (256 : Int) ^ 32 := by rw [h0]; exact h.2
      exact_mod_cast h2
    simp only [encryptData, toDataBytes, hser]
    refine ⟨_, _, rfl, ?_, leBytes_length _ _, ?_⟩
    · simp [decryptData, cipherDecrypt_cipherEncrypt]
    · rw [leDecode_leBytes _ _ hlt]
      exact Int.toNat_of_nonneg h.1
  · intro h
    have hser : serializeLE n 32 = none := by rw [serializeLE, if_neg h]
    simp only [encryptData, toDataBytes, hser]

/-- Witness for claim C3: the bigint 5 round-trips at width 64, while
`256 ^ 64` (bigint) and `256 ^ 32` (number) are rejected. -/
theorem claim_c3_witness :
    (∃ ed c2, encryptData env0 0 (.big 5) Algorithm.aes256 none = Except.ok (ed, c2)
      ∧ decryptData ed = Except.ok (leBytes 64 (5 : Int).toNat)
      ∧ (leBytes 64 (5 : Int).toNat).length = 64
      ∧ (leDecode (leBytes 64 (5 : Int).toNat) : Int) = 5)
    ∧ encryptData env0 0 (.big ((256 : Int) ^ 64)) Algorithm.aes256 none
      = Except.error "Data encryption failed: EncodingError"
    ∧ encryptData env0 0 (.num ((256 : Int) ^ 32)) Algorithm.aes256 none
      = Except.error "Data encryption failed: EncodingError" :=
  ⟨(claim_c3 env0 0 none Algorithm.aes256 5).1 (by constructor <;> norm_num),
   (claim_c3 env0 0 none Algorithm.aes256 ((256 : Int) ^ 64)).2.1
     (by rintro ⟨-, h2⟩; exact lt_irrefl _ h2),
   (claim_c3 env0 0 none Algorithm.aes256 ((256 : Int) ^ 32)).2.2.2
     (by rintro ⟨-, h2⟩; exact lt_irrefl _ h2)⟩

/-- Claim C4 is a code bug: `encryptTransactionAmount` serializes the amount
little-endian, but `decryptTransactionAmount` reassembles the decrypted bytes
as a big-endian hex string, so the round trip maps 1 to `256 ^ 63` instead of
back to 1. -/
theorem claim_c4_bug :
    (encryptTransactionAmount true env0 0 1).bind (fun p => decryptTransactionAmount true p.1)
      = Except.ok ((256 : Int) ^ 63)
    ∧ (256 : Int) ^ 63 ≠ 1 := by
  constructor
  · rfl
  · norm_num

/-- Claim C8: position opening is all-or-nothing — if the encryption of the
collateral or of the debt field fails (its serialization does not fit), then
`encryptPositionData` produces no `EncryptedPosition` at all. -/
theorem claim_c8 (env : Env) (ctr : Nat) (st : ClientState) (c d : Int)
    (o : PublicKey)
    (h : serializeLE c 64 = none ∨ serializeLE d 64 = none) :
    ∃ e, encryptPositionData env ctr st c d o = Except.error e := by
  by_cases hinit : st.isInitialized = false
  · refine ⟨"Arcium client not initialized", ?_⟩
    simp [encryptPositionData, hinit]
  · rcases h with hc | hd
    · have hmain : encryptPositionData env ctr st c d o
          = Except.error ("Position encryption failed: "
              ++ "Data encryption failed: EncodingError") := by
        simp [encryptPositionData, hinit, encryptData, toDataBytes, hc]
      exact ⟨_, hmain⟩
    · rcases hser : serializeLE c 64 with - | bs
      · have hmain : encryptPositionData env ctr st c d o
            = Except.error ("Position encryption failed: "
                ++ "Data encryption failed: EncodingError") := by
          simp [encryptPositionData, hinit, encryptData, toDataBytes, hser]
        exact ⟨_, hmain⟩
      · have hmain : encryptPositionData env ctr st c d o
            = Except.error ("Position encryption failed: "
                ++ "Data encryption failed: EncodingError") := by
          simp [encryptPositionData, hinit, encryptData, toDataBytes, hser, hd]
        exact ⟨_, hmain⟩

/-- Witness for claim C8: a collateral of `256 ^ 64` does not fit the 64-byte
width, and position opening fails outright. -/
theorem claim_c8_witness :
    serializeLE ((256 : Int) ^ 64) 64 = none
    ∧ ∃ e, encryptPositionData env0 0 st0 ((256 : Int) ^ 64) 0 owner0 = Except.error e := by
  have hser : serializeLE ((256 : Int) ^ 64) 64 = none := by
    rw [serializeLE, if_neg]
    rintro ⟨-, h2⟩
    exact lt_irrefl _ h2
  exact ⟨hser, claim_c8 env0 0 st0 ((256 : Int) ^ 64) 0 owner0 (Or.inl hser)⟩

/-- Claim C9 counterexample: with a network whose first submission attempt
fails and whose second would succeed, and a configured retry budget of 3,
`createHealthFactorComputation` surfaces the error immediately — it does not
re-submit, although a single retry would have produced the reference 42. -/
theorem claim_c9_counterexample :
    mxeConfig0.retryAttempts = 3
    ∧ createHealthFactorComputation st0 net0 ed0 ed0 ed0 "pos_1" 7
      = Except.error "Health factor computation failed: SubmissionError"
    ∧ (net0.outcomes 1).sendError = none
    ∧ createHealthFactorComputation st0 (netFrom net0 1) ed0 ed0 ed0 "pos_1" 7
      = Except.ok (42, [("pos_1-health_factor", 7)]) := by
  refine ⟨rfl, rfl, rfl, ?_⟩
  rfl

/-- Claim C9 (amended): on a submission failure the orchestrator surfaces the
error to the caller at once — `createHealthFactorComputation` consumes exactly
one network attempt (its result depends only on the first outcome) and the
configured `retryAttempts` is never consulted. -/
theorem claim_c9_amended (st : ClientState) (net1 net2 : Network)
    (encA encB encC : EncryptedData) (pid : String) (cb : Nat)
    (hinit : st.isInitialized = true)
    (hsame : net1.outcomes 0 = net2.outcomes 0) :
    createHealthFactorComputation st net1 encA encB encC pid cb
      = createHealthFactorComputation st net2 encA encB encC pid cb
    ∧ (∀ e, (net1.outcomes 0).sendError = some e →
        createHealthFactorComputation st net1 encA encB encC pid cb
          = Except.error ("Health factor computation failed: " ++ e)) := by
  constructor
  · simp only [createHealthFactorComputation, hsame]
  · intro e he
    simp [createHealthFactorComputation, hinit, he]

/-- Witness for claim C9 (amended) at the concrete failing network. -/
theorem claim_c9_amended_witness :
    st0.isInitialized = true
    ∧ (net0.outcomes 0).sendError = some "SubmissionError"
    ∧ createHealthFactorComputation st0 net0 ed0 ed0 ed0 "pos_1" 7
      = Except.error ("Health factor computation failed: " ++ "SubmissionError") :=
  ⟨rfl, rfl,
   (claim_c9_amended st0 net0 net0 ed0 ed0 ed0 "pos_1" 7 rfl rfl).2 "SubmissionError" rfl⟩

/-- Claim C2: on an initialized client, for encodable collateral and debt
amounts and any owner, `encryptPositionData` returns an `EncryptedPosition`
with `privacyLevel = CONFIDENTIAL`, a 32-byte position key, all three
encrypted fields keyed by that position key, pairwise-distinct nonces
(provided the three fresh 12-byte random draws are distinct, as a
cryptographic randomness source guarantees up to negligible probability), and
`createdAt = lastUpdated`. -/
theorem claim_c2 (env : Env) (ctr : Nat) (st : ClientState) (c d : Int)
    (o : PublicKey)
    (hinit : st.isInitialized = true)
    (hc0 : 0 ≤ c) (hc1 : c < (256 : Int) ^ 64)
    (hd0 : 0 ≤ d) (hd1 : d < (256 : Int) ^ 64)
    (h12 : (generateRandomBytes env (ctr + 32 + 8) 12).1
         ≠ (generateRandomBytes env (ctr + 32 + 8 + 12) 12).1)
    (h13 : (generateRandomBytes env (ctr + 32 + 8) 12).1
         ≠ (generateRandomBytes env (ctr + 32 + 8 + 12 + 12) 12).1)
    (h23 : (generateRandomBytes env (ctr + 32 + 8 + 12) 12).1
         ≠ (generateRandomBytes env (ctr + 32 + 8 + 12 + 12) 12).1) :
    ∃ p c2 eo, encryptPositionData env ctr st c d o = Except.ok (p, c2)
      ∧ p.privacyLevel = PrivacyLevel.CONFIDENTIAL
      ∧ p.positionKey.length = 32
      ∧ p.encryptedCollateral.key = p.positionKey
      ∧ p.encryptedDebt.key = p.positionKey
      ∧ p.encryptedOwner = some eo
      ∧ eo.key = p.positionKey
      ∧ p.encryptedCollateral.nonce ≠ p.encryptedDebt.nonce
      ∧ p.encryptedCollateral.nonce ≠ eo.nonce
      ∧ p.encryptedDebt.nonce ≠ eo.nonce
      ∧ p.createdAt = p.lastUpdated := by
  have hserc : serializeLE c 64 = some (leBytes 64 c.toNat) := by
    rw [serializeLE, if_pos ⟨hc0, hc1⟩]
  have hserd : serializeLE d 64 = some (leBytes 64 d.toNat) := by
    rw [serializeLE, if_pos ⟨hd0, hd1⟩]
  simp only [encryptPositionData, generatePositionId, hinit, encryptData, toDataBytes,
    hserc, hserd, generateRandomBytes_snd, Bool.true_eq_false, if_false]
  refine ⟨_, _, _, rfl, rfl, generateRandomBytes_fst_length _ _ _, rfl, rfl, rfl, rfl,
    ?_, ?_, ?_, rfl⟩
  · exact h12
  · exact h13
  · exact h23

/-- Witness for claim C2 at Scenario A's inputs (collateral 2,000,000,000,
debt 0) on the concrete environment, whose three nonce draws are distinct. -/
theorem claim_c2_witness :
    st0.isInitialized = true
    ∧ (generateRandomBytes env0 (0 + 32 + 8) 12).1
        ≠ (generateRandomBytes env0 (0 + 32 + 8 + 12) 12).1
    ∧ ∃ p c2 eo, encryptPositionData env0 0 st0 2000000000 0 owner0 = Except.ok (p, c2)
      ∧ p.privacyLevel = PrivacyLevel.CONFIDENTIAL
      ∧ p.positionKey.length = 32
      ∧ p.encryptedCollateral.key = p.positionKey
      ∧ p.encryptedDebt.key = p.positionKey
      ∧ p.encryptedOwner = some eo
      ∧ eo.key = p.positionKey
      ∧ p.encryptedCollateral.nonce ≠ p.encryptedDebt.nonce
      ∧ p.encryptedCollateral.nonce ≠ eo.nonce
      ∧ p.encryptedDebt.nonce ≠ eo.nonce
      ∧ p.createdAt = p.lastUpdated :=
  ⟨rfl, by decide,
   claim_c2 env0 0 st0 2000000000 0 owner0 rfl (by norm_num) (by norm_num)
     (by norm_num) (by norm_num) (by decide) (by decide) (by decide)⟩
